import Mathlib

/-!
Verification of the Required Return Calculator (Gordon Growth Model).

The validator and model engine of `src/src/App.jsx` (and their duplicate in
`src/unnamed/part_000`) are embedded shallowly: numeric inputs become exact
rationals, the field-keyed error object becomes a record of optional messages,
and the memoised `model` value becomes an `Option Model` guarded by the
validator, exactly as in the source.
-/

/-- The three numeric inputs held in component state
(`src/src/App.jsx`, lines 95-99). -/
structure Inputs where
  marketPrice : ℚ
  dividendAmount : ℚ
  growthRate : ℚ
deriving DecidableEq, Repr

/-- The field-keyed error object produced by `validateInputs`: only the three
input fields are ever assigned a message, so the JS object is embedded as a
record of optional strings. -/
structure Errors where
  marketPrice : Option String
  dividendAmount : Option String
  growthRate : Option String
deriving DecidableEq, Repr

/-- `Object.keys(errors).length === 0`: no field carries a message. -/
def Errors.isEmpty (e : Errors) : Bool :=
  e.marketPrice.isNone && e.dividendAmount.isNone && e.growthRate.isNone

/-- `validateInputs` from `src/src/App.jsx`, lines 101-122.  The JS guard
`!inputs.marketPrice` is truthy negation, which on finite numbers holds
exactly at `0`; it is kept as an explicit disjunct. -/
def validateInputs (i : Inputs) : Errors :=
  { marketPrice :=
      if i.marketPrice = 0 ∨ i.marketPrice < 1 then
        some ("Market price must be at least $1")
      else if i.marketPrice > 500 then
        some ("Market price cannot exceed $500")
      else none
    dividendAmount :=
      if i.dividendAmount < 0 then
        some ("Dividend cannot be negative")
      else if i.dividendAmount > 50 then
        some ("Dividend cannot exceed $50")
      else none
    growthRate :=
      if i.growthRate < 0 then
        some ("Growth rate cannot be negative")
      else if i.growthRate > 25 then
        some ("Growth rate cannot exceed 25%")
      else none }

/-- One entry pushed onto `cashflows` (`src/src/App.jsx`, lines 144-157). -/
structure Cashflow where
  year : ℕ
  dividend : ℚ
  investment : ℚ
  total : ℚ
deriving DecidableEq, Repr

/-- The record returned by the model computation
(`src/src/App.jsx`, lines 161-166). -/
structure Model where
  requiredReturn : ℚ
  d1 : ℚ
  cashflows : List Cashflow
  isValid : Bool
deriving DecidableEq, Repr

/-- The body of the `model` memo after its validation guard
(`src/src/App.jsx`, lines 133-166): growth rate to decimal, next dividend,
closed-form required return, the 11-entry projection loop for years 0..10,
and the model-validity flag. -/
def computeModel (i : Inputs) : Model :=
  let g := i.growthRate / 100
  let d0 := i.dividendAmount
  let d1 := d0 * (1 + g)
  let price := i.marketPrice
  let requiredReturn := d1 / price + g
  let requiredReturnPct := requiredReturn * 100
  let cashflows := (List.range 11).map (fun year =>
    if year = 0 then
      { year := year, dividend := 0, investment := -price, total := -price }
    else
      let dividend := d0 * (1 + g) ^ year
      { year := year, dividend := dividend, investment := 0, total := dividend })
  { requiredReturn := requiredReturnPct
    d1 := d1
    cashflows := cashflows
    isValid := decide (g < requiredReturn) && decide (requiredReturnPct > 0) }

/-- The guarded `model` memo (`src/src/App.jsx`, lines 130-167): `null` when
the error object is non-empty, otherwise the computed model. -/
def model (i : Inputs) : Option Model :=
  if (validateInputs i).isEmpty then some (computeModel i) else none

/-- A row of `chartData` (`src/src/App.jsx`, lines 172-178). -/
structure ChartRow where
  yearLabel : String
  year : ℕ
  dividendFlow : ℚ
  investmentFlow : ℚ
  requiredReturnLine : ℚ
deriving DecidableEq, Repr

/-- `chartData` from `src/src/App.jsx`, lines 169-179: the empty list when
`model` is `null`, otherwise one row per cashflow, each carrying the model's
constant required return. -/
def chartData (i : Inputs) : List ChartRow :=
  match model i with
  | none => []
  | some m => m.cashflows.map (fun cf =>
      { yearLabel := toString cf.year
        year := cf.year
        dividendFlow := cf.dividend
        investmentFlow := cf.investment
        requiredReturnLine := m.requiredReturn })

/-- `validateInputs` from the duplicate implementation in
`src/unnamed/part_000`, lines 217-238 (textually identical rules). -/
def validateInputsB (i : Inputs) : Errors :=
  { marketPrice :=
      if i.marketPrice = 0 ∨ i.marketPrice < 1 then
        some ("Market price must be at least $1")
      else if i.marketPrice > 500 then
        some ("Market price cannot exceed $500")
      else none
    dividendAmount :=
      if i.dividendAmount < 0 then
        some ("Dividend cannot be negative")
      else if i.dividendAmount > 50 then
        some ("Dividend cannot exceed $50")
      else none
    growthRate :=
      if i.growthRate < 0 then
        some ("Growth rate cannot be negative")
      else if i.growthRate > 25 then
        some ("Growth rate cannot exceed 25%")
      else none }

/-- The body of the `model` memo from `src/unnamed/part_000`,
lines 249-272 (textually identical computation). -/
def computeModelB (i : Inputs) : Model :=
  let g := i.growthRate / 100
  let d0 := i.dividendAmount
  let d1 := d0 * (1 + g)
  let price := i.marketPrice
  let requiredReturn := d1 / price + g
  let requiredReturnPct := requiredReturn * 100
  let cashflows := (List.range 11).map (fun year =>
    if year = 0 then
      { year := year, dividend := 0, investment := -price, total := -price }
    else
      let dividend := d0 * (1 + g) ^ year
      { year := year, dividend := dividend, investment := 0, total := dividend })
  { requiredReturn := requiredReturnPct
    d1 := d1
    cashflows := cashflows
    isValid := decide (g < requiredReturn) && decide (requiredReturnPct > 0) }

/-- The guarded `model` memo from `src/unnamed/part_000`, lines 246-273. -/
def modelB (i : Inputs) : Option Model :=
  if (validateInputsB i).isEmpty then some (computeModelB i) else none

section Helpers

/-- No market-price error is raised exactly when the price lies in `[1, 500]`. -/
theorem validateInputs_marketPrice_none (i : Inputs) :
    (validateInputs i).marketPrice = none ↔
      1 ≤ i.marketPrice ∧ i.marketPrice ≤ 500 := by
  simp only [validateInputs]
  split_ifs with h1 h2
  · simp only [reduceCtorEq, false_iff, not_and, not_le]
    intro hl
    rcases h1 with h | h <;> linarith
  · simp only [reduceCtorEq, false_iff, not_and, not_le]
    intro hl
    linarith
  · push_neg at h1 h2
    simp only [true_iff]
    exact ⟨h1.2, h2⟩

/-- The lower-bound market-price message fires exactly when the price is
below 1 (the truthy-zero disjunct is subsumed by `< 1`). -/
theorem validateInputs_marketPrice_low (i : Inputs) :
    (validateInputs i).marketPrice = some ("Market price must be at least $1") ↔
      i.marketPrice < 1 := by
  simp only [validateInputs]
  split_ifs with h1 h2
  · simp only [true_iff]
    rcases h1 with h | h <;> linarith
  · push_neg at h1
    simp only [Option.some.injEq, false_iff, not_lt]
    constructor
    · intro hEq
      exact absurd hEq (by decide)
    · exact fun hlt => absurd hlt (not_lt.mpr h1.2)
  · push_neg at h1
    simp only [reduceCtorEq, false_iff, not_lt]
    exact h1.2

/-- No dividend error is raised exactly when the dividend lies in `[0, 50]`. -/
theorem validateInputs_dividend_none (i : Inputs) :
    (validateInputs i).dividendAmount = none ↔
      0 ≤ i.dividendAmount ∧ i.dividendAmount ≤ 50 := by
  simp only [validateInputs]
  split_ifs with h1 h2
  · simp only [reduceCtorEq, false_iff, not_and, not_le]
    intro hl
    linarith
  · simp only [reduceCtorEq, false_iff, not_and, not_le]
    intro hl
    linarith
  · push_neg at h1 h2
    simp only [true_iff]
    exact ⟨h1, h2⟩

/-- No growth-rate error is raised exactly when the rate lies in `[0, 25]`. -/
theorem validateInputs_growthRate_none (i : Inputs) :
    (validateInputs i).growthRate = none ↔
      0 ≤ i.growthRate ∧ i.growthRate ≤ 25 := by
  simp only [validateInputs]
  split_ifs with h1 h2
  · simp only [reduceCtorEq, false_iff, not_and, not_le]
    intro hl
    linarith
  · simp only [reduceCtorEq, false_iff, not_and, not_le]
    intro hl
    linarith
  · push_neg at h1 h2
    simp only [true_iff]
    exact ⟨h1, h2⟩

/-- The error object is empty exactly when all three inputs are within their
bounds: price in `[1, 500]`, dividend in `[0, 50]`, growth rate in `[0, 25]`. -/
theorem validateInputs_isEmpty_iff (i : Inputs) :
    (validateInputs i).isEmpty = true ↔
      1 ≤ i.marketPrice ∧ i.marketPrice ≤ 500 ∧
      0 ≤ i.dividendAmount ∧ i.dividendAmount ≤ 50 ∧
      0 ≤ i.growthRate ∧ i.growthRate ≤ 25 := by
  simp only [Errors.isEmpty, Bool.and_eq_true, Option.isNone_iff_eq_none,
    validateInputs_marketPrice_none, validateInputs_dividend_none,
    validateInputs_growthRate_none]
  tauto

/-- The cashflow list built by the projection loop, written out. -/
theorem computeModel_cashflows (i : Inputs) :
    (computeModel i).cashflows =
      [{ year := 0, dividend := 0, investment := -i.marketPrice, total := -i.marketPrice },
       { year := 1, dividend := i.dividendAmount * (1 + i.growthRate / 100) ^ 1,
         investment := 0, total := i.dividendAmount * (1 + i.growthRate / 100) ^ 1 },
       { year := 2, dividend := i.dividendAmount * (1 + i.growthRate / 100) ^ 2,
         investment := 0, total := i.dividendAmount * (1 + i.growthRate / 100) ^ 2 },
       { year := 3, dividend := i.dividendAmount * (1 + i.growthRate / 100) ^ 3,
         investment := 0, total := i.dividendAmount * (1 + i.growthRate / 100) ^ 3 },
       { year := 4, dividend := i.dividendAmount * (1 + i.growthRate / 100) ^ 4,
         investment := 0, total := i.dividendAmount * (1 + i.growthRate / 100) ^ 4 },
       { year := 5, dividend := i.dividendAmount * (1 + i.growthRate / 100) ^ 5,
         investment := 0, total := i.dividendAmount * (1 + i.growthRate / 100) ^ 5 },
       { year := 6, dividend := i.dividendAmount * (1 + i.growthRate / 100) ^ 6,
         investment := 0, total := i.dividendAmount * (1 + i.growthRate / 100) ^ 6 },
       { year := 7, dividend := i.dividendAmount * (1 + i.growthRate / 100) ^ 7,
         investment := 0, total := i.dividendAmount * (1 + i.growthRate / 100) ^ 7 },
       { year := 8, dividend := i.dividendAmount * (1 + i.growthRate / 100) ^ 8,
         investment := 0, total := i.dividendAmount * (1 + i.growthRate / 100) ^ 8 },
       { year := 9, dividend := i.dividendAmount * (1 + i.growthRate / 100) ^ 9,
         investment := 0, total := i.dividendAmount * (1 + i.growthRate / 100) ^ 9 },
       { year := 10, dividend := i.dividendAmount * (1 + i.growthRate / 100) ^ 10,
         investment := 0, total := i.dividendAmount * (1 + i.growthRate / 100) ^ 10 }] := rfl

/-- The required-return-percent field, written out. -/
theorem computeModel_requiredReturn (i : Inputs) :
    (computeModel i).requiredReturn =
      (i.dividendAmount * (1 + i.growthRate / 100) / i.marketPrice + i.growthRate / 100) * 100 :=
  rfl

/-- The model-validity flag, written out. -/
theorem computeModel_isValid (i : Inputs) :
    (computeModel i).isValid = true ↔
      (i.growthRate / 100 <
         i.dividendAmount * (1 + i.growthRate / 100) / i.marketPrice + i.growthRate / 100 ∧
       (i.dividendAmount * (1 + i.growthRate / 100) / i.marketPrice + i.growthRate / 100) * 100
         > 0) := by
  simp [computeModel]

/-- When validation passes, `model` holds the computed model. -/
theorem model_of_isEmpty (i : Inputs) (h : (validateInputs i).isEmpty = true) :
    model i = some (computeModel i) := by
  simp [model, h]

end Helpers

/-- C1: whenever the validator returns an empty mapping, the model's
required-return percentage equals
`100 * ((dividendAmount * (1 + growthRatePercent/100) / marketPrice) + growthRatePercent/100)`,
exactly, by construction of `r = d1/price + g` scaled by 100. -/
theorem claim_C1_requiredReturn_formula (i : Inputs)
    (h : (validateInputs i).isEmpty = true) :
    (computeModel i).requiredReturn =
      100 * ((i.dividendAmount * (1 + i.growthRate / 100) / i.marketPrice)
        + i.growthRate / 100) := by
  rw [computeModel_requiredReturn]
  ring

/-- C1 witness: the formula instantiated at a concrete valid input. -/
theorem claim_C1_witness :
    (validateInputs ⟨50, 5, 6⟩).isEmpty = true ∧
    (computeModel ⟨50, 5, 6⟩).requiredReturn =
      100 * (((5 : ℚ) * (1 + 6 / 100) / 50) + 6 / 100) :=
  ⟨by decide, claim_C1_requiredReturn_formula ⟨50, 5, 6⟩ (by decide)⟩

/-- C2: whenever the validator returns an empty mapping, the cashflow list has
exactly 11 entries with years 0..10 in order; the year-0 entry has dividend 0
and investment `-marketPrice`, and each entry of year `y ≥ 1` has dividend
`dividendAmount * (1 + growthRatePercent/100)^y` and investment 0. -/
theorem claim_C2_cashflow_schedule (i : Inputs)
    (h : (validateInputs i).isEmpty = true) :
    (computeModel i).cashflows.length = 11 ∧
    ((computeModel i).cashflows).map (fun cf => cf.year) = List.range 11 ∧
    ∀ cf ∈ (computeModel i).cashflows,
      (cf.year = 0 → cf.dividend = 0 ∧ cf.investment = -i.marketPrice) ∧
      (1 ≤ cf.year →
        cf.dividend = i.dividendAmount * (1 + i.growthRate / 100) ^ cf.year ∧
        cf.investment = 0) := by
  rw [computeModel_cashflows]
  refine ⟨rfl, rfl, ?_⟩
  intro cf hcf
  simp only [List.mem_cons, List.not_mem_nil, or_false] at hcf
  rcases hcf with rfl | rfl | rfl | rfl | rfl | rfl | rfl | rfl | rfl | rfl | rfl
  · exact ⟨fun _ => ⟨rfl, rfl⟩, fun hy => absurd hy (by simp)⟩
  all_goals exact ⟨fun hy => absurd hy (by simp), fun _ => ⟨rfl, rfl⟩⟩

/-- C2 witness: the schedule length at a concrete valid input. -/
theorem claim_C2_witness :
    (validateInputs ⟨50, 5, 6⟩).isEmpty = true ∧
    (computeModel ⟨50, 5, 6⟩).cashflows.length = 11 :=
  ⟨by decide, (claim_C2_cashflow_schedule ⟨50, 5, 6⟩ (by decide)).1⟩

/-- C3: the validator is total by construction (a Lean function on rational
triples) and returns the empty mapping exactly when the price is in
`[1, 500]`, the dividend in `[0, 50]` and the growth rate in `[0, 25]`. -/
theorem claim_C3_validator_empty_iff_bounds (i : Inputs) :
    (validateInputs i).isEmpty = true ↔
      1 ≤ i.marketPrice ∧ i.marketPrice ≤ 500 ∧
      0 ≤ i.dividendAmount ∧ i.dividendAmount ≤ 50 ∧
      0 ≤ i.growthRate ∧ i.growthRate ≤ 25 :=
  validateInputs_isEmpty_iff i

/-- C4: whenever the validator returns an empty mapping, the model's
`isValid` flag is true exactly when the growth-rate decimal is below the
required-return decimal and the required-return percentage is positive. -/
theorem claim_C4_isValid_invariant (i : Inputs)
    (h : (validateInputs i).isEmpty = true) :
    (computeModel i).isValid = true ↔
      (i.growthRate / 100 <
         i.dividendAmount * (1 + i.growthRate / 100) / i.marketPrice + i.growthRate / 100 ∧
       (i.dividendAmount * (1 + i.growthRate / 100) / i.marketPrice + i.growthRate / 100) * 100
         > 0) :=
  computeModel_isValid i

/-- C4 witness: the invariant instantiated at a concrete valid input. -/
theorem claim_C4_witness :
    (validateInputs ⟨50, 5, 6⟩).isEmpty = true ∧
    ((computeModel ⟨50, 5, 6⟩).isValid = true ↔
      ((6 : ℚ) / 100 < 5 * (1 + 6 / 100) / 50 + 6 / 100 ∧
       ((5 : ℚ) * (1 + 6 / 100) / 50 + 6 / 100) * 100 > 0)) :=
  ⟨by decide, claim_C4_isValid_invariant ⟨50, 5, 6⟩ (by decide)⟩

/-- C5: a model is produced exactly when the validator's mapping is empty:
`model` is `some` iff the error object is empty, `none` otherwise. -/
theorem claim_C5_model_iff_no_errors (i : Inputs) :
    (model i).isSome = (validateInputs i).isEmpty := by
  rcases hb : (validateInputs i).isEmpty <;> simp [model, hb]

/-- C6 counterexample: a market price of exactly 1 is not greater than 1, yet
the validator accepts it (no `marketPrice` error), so the accepted set is not
the half-open interval `(1, 500]`. -/
theorem claim_C6_counterexample :
    (1 : ℚ) ≤ 1 ∧
    (validateInputs { marketPrice := 1, dividendAmount := 0, growthRate := 0 }).marketPrice
      = none := by
  decide

/-- C6 (amended): the accepted market prices form the closed interval
`[1, 500]`, and the message "Market price must be at least $1" is produced
exactly when the price is below 1. -/
theorem claim_C6_amended_accepted_interval (i : Inputs) :
    ((validateInputs i).marketPrice = none ↔
       1 ≤ i.marketPrice ∧ i.marketPrice ≤ 500) ∧
    ((validateInputs i).marketPrice = some ("Market price must be at least $1") ↔
       i.marketPrice < 1) :=
  ⟨validateInputs_marketPrice_none i, validateInputs_marketPrice_low i⟩

/-- C7: whenever the validator returns an empty mapping, every one of the 11
chart rows carries the same constant required-return value, equal to the
model's `requiredReturn`. -/
theorem claim_C7_constant_return_line (i : Inputs)
    (h : (validateInputs i).isEmpty = true) :
    (chartData i).length = 11 ∧
    ∀ row ∈ chartData i, row.requiredReturnLine = (computeModel i).requiredReturn := by
  constructor
  · simp [chartData, model_of_isEmpty i h, computeModel_cashflows]
  · intro row hrow
    simp only [chartData, model_of_isEmpty i h, List.mem_map] at hrow
    obtain ⟨cf, -, rfl⟩ := hrow
    rfl

/-- C7 witness: the chart has 11 rows at a concrete valid input. -/
theorem claim_C7_witness :
    (validateInputs ⟨50, 5, 6⟩).isEmpty = true ∧
    (chartData ⟨50, 5, 6⟩).length = 11 :=
  ⟨by decide, (claim_C7_constant_return_line ⟨50, 5, 6⟩ (by decide)).1⟩

/-- C8: the validator and model engine of `src/src/App.jsx` and of
`src/unnamed/part_000` are extensionally equal: on every input triple they
return the same error mapping and structurally equal models. -/
theorem claim_C8_duplicate_engines_agree (i : Inputs) :
    validateInputs i = validateInputsB i ∧
    computeModel i = computeModelB i ∧
    model i = modelB i :=
  ⟨rfl, rfl, rfl⟩

/-- C9: whenever the validator returns an empty mapping, the model's
`isValid` flag is true exactly when the dividend is positive (in exact
arithmetic: with a positive dividend, `r` exceeds `g` by the positive
dividend yield; with a zero dividend, `r` equals `g`). -/
theorem claim_C9_isValid_iff_positive_dividend (i : Inputs)
    (h : (validateInputs i).isEmpty = true) :
    (computeModel i).isValid = true ↔ 0 < i.dividendAmount := by
  obtain ⟨hp1, -, hd0, -, hg0, -⟩ := (validateInputs_isEmpty_iff i).mp h
  have hp : (0 : ℚ) < i.marketPrice := by linarith
  have hq : (0 : ℚ) < 1 + i.growthRate / 100 := by linarith
  rw [computeModel_isValid]
  constructor
  · rintro ⟨hlt, -⟩
    by_contra hd
    push_neg at hd
    have hmul : i.dividendAmount * (1 + i.growthRate / 100) ≤ 0 :=
      mul_nonpos_iff.mpr (Or.inr ⟨hd, hq.le⟩)
    have hx : i.dividendAmount * (1 + i.growthRate / 100) / i.marketPrice ≤ 0 :=
      div_nonpos_iff.mpr (Or.inr ⟨hmul, hp.le⟩)
    linarith
  · intro hd
    have hdiv : 0 < i.dividendAmount * (1 + i.growthRate / 100) / i.marketPrice :=
      div_pos (mul_pos hd hq) hp
    constructor
    · linarith
    · nlinarith

/-- C9 witness: the equivalence instantiated at a concrete valid input. -/
theorem claim_C9_witness :
    (validateInputs ⟨50, 5, 6⟩).isEmpty = true ∧
    ((computeModel ⟨50, 5, 6⟩).isValid = true ↔ (0 : ℚ) < 5) :=
  ⟨by decide, claim_C9_isValid_iff_positive_dividend ⟨50, 5, 6⟩ (by decide)⟩

/-- C10: whenever the validator returns an empty mapping, the dividend flows
of years 1..10 are nonnegative and nondecreasing year over year. -/
theorem claim_C10_dividends_monotone (i : Inputs)
    (h : (validateInputs i).isEmpty = true) :
    (∀ cf ∈ (computeModel i).cashflows.drop 1, 0 ≤ cf.dividend) ∧
    List.Chain' (fun a b => a.dividend ≤ b.dividend)
      ((computeModel i).cashflows.drop 1) := by
  obtain ⟨-, -, hd0, -, hg0, -⟩ := (validateInputs_isEmpty_iff i).mp h
  have hq1 : (1 : ℚ) ≤ 1 + i.growthRate / 100 := by linarith
  have hq0 : (0 : ℚ) ≤ 1 + i.growthRate / 100 := by linarith
  rw [computeModel_cashflows]
  constructor
  · intro cf hcf
    simp only [List.drop, List.mem_cons, List.not_mem_nil, or_false] at hcf
    rcases hcf with rfl | rfl | rfl | rfl | rfl | rfl | rfl | rfl | rfl | rfl
    all_goals exact mul_nonneg hd0 (pow_nonneg hq0 _)
  · simp only [List.drop, List.chain'_cons, List.chain'_singleton, and_true]
    refine ⟨?_, ?_, ?_, ?_, ?_, ?_, ?_, ?_, ?_⟩
    all_goals
      exact mul_le_mul_of_nonneg_left (pow_le_pow_right₀ hq1 (by norm_num)) hd0

/-- C10 witness: the chain of inequalities at a concrete valid input. -/
theorem claim_C10_witness :
    (validateInputs ⟨50, 5, 6⟩).isEmpty = true ∧
    List.Chain' (fun a b => a.dividend ≤ b.dividend)
      ((computeModel ⟨50, 5, 6⟩).cashflows.drop 1) :=
  ⟨by decide, (claim_C10_dividends_monotone ⟨50, 5, 6⟩ (by decide)).2⟩
